import Mathlib

/-!
# Coffee Shop API — authentication core, shallow embedding

This file embeds the authentication and token-lifecycle subsystem of the
coffee-shop-api repository (FastAPI/SQLAlchemy) as executable Lean
definitions, and proves theorems about the embedded operations.

Conventions of the embedding:

* Time is `Int`, seconds since the Unix epoch.  Python `datetime` values
  are `PyDateTime`: an instant together with an awareness flag
  (`tzinfo is None` ⟷ `aware = false`).  The application always writes
  UTC instants, so a naive value's wall-clock reading *is* its UTC
  instant; `replace(tzinfo=timezone.utc)` is modelled by setting the
  flag.
* The database is a `List Account`; SQLAlchemy `select ... where` is
  `List.find?` / `List.filter`, and the `id` primary key is a `Nat`.
* bcrypt hashes (passlib `CryptContext(schemes=["bcrypt"])`) are modelled
  collision-free: a well-formed hash records its salt and the hashed
  secret, and `verify` decides the match by comparing secrets.  A string
  that is not a recognisable bcrypt hash is `BcryptHash.malformed`;
  passlib's `CryptContext.verify` raises `UnknownHashError` (a
  `ValueError`) on such input, which the embedding returns as
  `Except.error PasslibError.unknownHash`.
* JWTs (python-jose, HS256) are modelled by their claim set plus a flag
  recording whether they were signed with the server's secret.
  `jwt.encode` is deterministic: the header is fixed, claim insertion
  order is fixed by the code, and the `exp` datetime is serialised as an
  integer number of seconds — so two tokens are equal as strings iff
  their claim sets are equal.  Token equality in the model therefore
  coincides with string equality of the real tokens.
* Raised `HTTPException`s become `Except.error` values carrying status
  code, detail and headers; an exception escaping from passlib is the
  separate error `ServiceError.passlib` (FastAPI would turn it into a
  500 response).
-/

namespace CoffeeShop

/-- `app/core/config.py`: configuration defaults relevant to the core
(`Settings` field defaults; `SECRET_KEY`/`ALGORITHM` are absorbed into the
signature flag of the JWT model). -/
structure Settings where
  ACCESS_TOKEN_EXPIRE_MINUTES : Int := 30
  REFRESH_TOKEN_EXPIRE_DAYS : Int := 7
  VERIFICATION_CODE_EXPIRE_HOURS : Int := 24
  UNVERIFIED_USER_DELETE_DAYS : Int := 2
  deriving Repr

/-- The singleton `settings` instance with the defaults from `config.py`. -/
def settings : Settings := {}

/-- A Python `datetime`: an absolute instant (seconds) plus whether the
value carries a `tzinfo`.  The application only ever writes UTC, so a
naive value's stored number is its UTC reading. -/
structure PyDateTime where
  instant : Int
  aware : Bool := true
  deriving DecidableEq, Repr

/-- `dt if dt.tzinfo is not None else dt.replace(tzinfo=timezone.utc)` —
the naive-datetime normalisation both `verify_email` and the cleanup task
perform before comparing. -/
def PyDateTime.forceUtc (d : PyDateTime) : PyDateTime :=
  if d.aware then d else { d with aware := true }

/-- A stored password / verification-code hash string.  `bcrypt salt sec`
is a well-formed bcrypt hash of secret `sec` under salt `salt`
(collision-free model of the one-way hash); `malformed raw` is a string
no configured passlib scheme recognises. -/
inductive BcryptHash where
  | bcrypt (salt : Nat) (secret : String)
  | malformed (raw : String)
  deriving DecidableEq, Repr

/-- Exception raised by passlib when the hash string is not recognised
(`passlib.exc.UnknownHashError`, a `ValueError`). -/
inductive PasslibError where
  | unknownHash
  deriving DecidableEq, Repr

/-- `app/core/security.py` `hash_password`: bcrypt with a fresh random
salt (the salt is an explicit argument of the model). -/
def hash_password (password : String) (salt : Nat) : BcryptHash :=
  .bcrypt salt password

/-- `app/core/security.py` `verify_password`, i.e.
`pwd_context.verify(plain, hashed)`: decides the match for a well-formed
bcrypt hash; raises `UnknownHashError` when the hash string is not
recognised by any configured scheme. -/
def verify_password (plain : String) (hashed : BcryptHash) :
    Except PasslibError Bool :=
  match hashed with
  | .bcrypt _ secret => .ok (plain == secret)
  | .malformed _ => .error .unknownHash

/-- The claim set of a JWT minted by this application: `sub` (a string,
`str(user.id)` at every call site), `exp` (seconds since epoch; jose
serialises the datetime to an integer), and the optional `type` claim
(present, `"refresh"`, only on refresh tokens). -/
structure JwtPayload where
  sub : Option String
  exp : Int
  type : Option String
  deriving DecidableEq, Repr

/-- A JWT string.  Encoding is deterministic and injective on the claim
set, so the model keeps the claim set itself together with whether the
token was signed with the server's `SECRET_KEY`. -/
structure Jwt where
  payload : JwtPayload
  signedWithServerSecret : Bool := true
  deriving DecidableEq, Repr

/-- `create_access_token({"sub": sub})` at time `now` (every call site
passes no `expires_delta`, so the default
`ACCESS_TOKEN_EXPIRE_MINUTES` applies; no `type` claim is added). -/
def create_access_token (sub : String) (now : Int) : Jwt :=
  { payload :=
      { sub := some sub
        exp := now + settings.ACCESS_TOKEN_EXPIRE_MINUTES * 60
        type := none } }

/-- `create_refresh_token({"sub": sub})` at time `now`: adds
`exp = now + REFRESH_TOKEN_EXPIRE_DAYS` and `type = "refresh"`. -/
def create_refresh_token (sub : String) (now : Int) : Jwt :=
  { payload :=
      { sub := some sub
        exp := now + settings.REFRESH_TOKEN_EXPIRE_DAYS * 86400
        type := some "refresh" } }

/-- `decode_token` at time `now`: verifies the signature and the `exp`
claim; any failure is surfaced to callers as a single `JWTError`
(`none` here).  jose rejects a token whose `exp` lies strictly in the
past. -/
def decode_token (t : Jwt) (now : Int) : Option JwtPayload :=
  if !t.signedWithServerSecret then none
  else if t.payload.exp < now then none
  else some t.payload

/-- `app/models/user.py` `UserRole`. -/
inductive UserRole where
  | user
  | admin
  deriving DecidableEq, Repr

/-- `app/models/user.py` `User` row.  `updated_at` is a store-managed
`onupdate` timestamp no claim refers to, and is omitted. -/
structure Account where
  id : Nat
  email : String
  hashed_password : BcryptHash
  first_name : Option String := none
  last_name : Option String := none
  role : UserRole := .user
  is_verified : Bool := false
  verification_code : Option BcryptHash := none
  verification_code_expires_at : Option PyDateTime := none
  created_at : PyDateTime
  deriving DecidableEq, Repr

/-- The users table. -/
abbrev Db := List Account

/-- `select(User).where(User.email == e)` + `scalar_one_or_none()`
(emails are unique, so at most one row matches). -/
def findByEmail (db : Db) (e : String) : Option Account :=
  db.find? fun u => u.email == e

/-- `select(User).where(User.id == i)` + `scalar_one_or_none()`. -/
def findById (db : Db) (i : Nat) : Option Account :=
  db.find? fun u => u.id == i

/-- The id the store assigns to a freshly inserted row (autoincrement
primary key: larger than every existing id). -/
def nextId (db : Db) : Nat :=
  (db.map (·.id)).foldr max 0 + 1

/-- A raised `fastapi.HTTPException`. -/
structure HTTPError where
  status_code : Nat
  detail : String
  headers : List (String × String) := []
  deriving DecidableEq, Repr

/-- An error escaping a service function: either a deliberately raised
`HTTPException`, or a passlib exception propagating uncaught (FastAPI
returns a 500 for the latter). -/
inductive ServiceError where
  | http (e : HTTPError)
  | passlib (e : PasslibError)
  deriving DecidableEq, Repr

/-- `app/schemas/auth.py` `TokenResponse`. -/
structure TokenResponse where
  access_token : Jwt
  refresh_token : Jwt
  token_type : String := "bearer"
  deriving DecidableEq, Repr

/-- `app/schemas/auth.py` `SignupRequest` (post-validation payload). -/
structure SignupRequest where
  email : String
  password : String
  first_name : Option String := none
  last_name : Option String := none
  deriving DecidableEq, Repr

/-- `str(secrets.randbelow(10))` for one uniformly drawn digit. -/
def digitChar : Fin 10 → Char
  | 0 => '0'
  | 1 => '1'
  | 2 => '2'
  | 3 => '3'
  | 4 => '4'
  | 5 => '5'
  | 6 => '6'
  | 7 => '7'
  | 8 => '8'
  | 9 => '9'

/-- `''.join([str(secrets.randbelow(10)) for _ in range(6)])`: the
six independently drawn digits are the explicit argument `ds`. -/
def generateCode (ds : Fin 6 → Fin 10) : String :=
  String.mk ((List.finRange 6).map fun i => digitChar (ds i))

/-- Python `int(s)` restricted to the canonical all-digit numerals this
system puts into the `sub` claim (`str(user.id)`); on them the two
agree exactly.  (Real `int()` also accepts signs and surrounding
whitespace, which no token issued by this code ever carries.) -/
def pyIntNat? (s : String) : Option Nat :=
  if s.data.isEmpty then none
  else if s.data.all Char.isDigit then
    some (s.data.foldl (fun n c => n * 10 + (c.toNat - 48)) 0)
  else none

/-- The duplicate-email `HTTPException` of `register_user`. -/
def duplicateEmailError : HTTPError :=
  { status_code := 400, detail := "Email already registered" }

/-- `app/services/auth_service.py` `register_user`.  Explicit model
inputs: the six random code digits `ds`, the two bcrypt salts, the clock
`now`, and the store `db`.  Returns the store after the call together
with the HTTP result.  The plaintext code is only logged/printed
(out-of-band delivery), never part of the response. -/
def register_user (db : Db) (req : SignupRequest) (ds : Fin 6 → Fin 10)
    (saltPw saltCode : Nat) (now : Int) :
    Db × Except HTTPError TokenResponse :=
  match findByEmail db req.email with
  | some _ => (db, .error duplicateEmailError)
  | none =>
    let verification_code := generateCode ds
    let expires_at : Int :=
      now + settings.VERIFICATION_CODE_EXPIRE_HOURS * 3600
    let new_user : Account :=
      { id := nextId db
        email := req.email
        hashed_password := hash_password req.password saltPw
        first_name := req.first_name
        last_name := req.last_name
        role := .user
        is_verified := false
        verification_code := some (hash_password verification_code saltCode)
        verification_code_expires_at := some { instant := expires_at }
        created_at := { instant := now } }
    (db ++ [new_user],
     .ok { access_token := create_access_token (toString new_user.id) now
           refresh_token := create_refresh_token (toString new_user.id) now })

/-- The single `HTTPException` raised for both login failure causes. -/
def loginFailureError : HTTPError :=
  { status_code := 401
    detail := "Incorrect email or password"
    headers := [("WWW-Authenticate", "Bearer")] }

/-- `app/services/auth_service.py` `login_user`:
`if not user or not verify_password(...)` raises one shared 401. -/
def login_user (db : Db) (email password : String) (now : Int) :
    Except ServiceError TokenResponse :=
  match findByEmail db email with
  | none => .error (.http loginFailureError)
  | some user =>
    match verify_password password user.hashed_password with
    | .error e => .error (.passlib e)
    | .ok matches_ =>
      if !matches_ then .error (.http loginFailureError)
      else
        .ok { access_token := create_access_token (toString user.id) now
              refresh_token := create_refresh_token (toString user.id) now }

/-- The four `HTTPException`s of `verify_email`, in raise order. -/
def alreadyVerifiedError : HTTPError :=
  { status_code := 400, detail := "Email already verified" }

def noCodeError : HTTPError :=
  { status_code := 400
    detail := "No verification code found. Please request a new one." }

def codeExpiredError : HTTPError :=
  { status_code := 400
    detail := "Verification code expired. Please request a new one." }

def invalidCodeError : HTTPError :=
  { status_code := 400, detail := "Invalid verification code" }

/-- `app/services/auth_service.py` `verify_email`: checks, in order,
`is_verified`, presence of a stored code hash, expiry (only when an
expiry timestamp is present — the whole block is guarded by
`if user.verification_code_expires_at:`), and the hash comparison; on
success flips `is_verified` and clears both code fields, and the commit
persists the mutated row. -/
def verify_email (now : Int) (code : String) (user : Account) :
    Except ServiceError Account :=
  if user.is_verified then .error (.http alreadyVerifiedError)
  else
    match user.verification_code with
    | none => .error (.http noCodeError)
    | some storedHash =>
      let expired : Bool :=
        match user.verification_code_expires_at with
        | some e => decide ((PyDateTime.forceUtc e).instant < now)
        | none => false
      if expired then .error (.http codeExpiredError)
      else
        match verify_password code storedHash with
        | .error e => .error (.passlib e)
        | .ok matches_ =>
          if !matches_ then .error (.http invalidCodeError)
          else
            .ok { user with
                    is_verified := true
                    verification_code := none
                    verification_code_expires_at := none }

/-- `app/services/auth_service.py` `refresh_access_token`: decode (any
decode exception → 401 "Invalid or expired refresh token"), check the
`type` claim equals `"refresh"`, extract and parse `sub`, look the user
up, and mint a brand-new pair (rotation).  `int(s)` is `pyIntNat?`. -/
def refresh_access_token (db : Db) (token : Jwt) (now : Int) :
    Except ServiceError TokenResponse :=
  match decode_token token now with
  | none =>
    .error (.http { status_code := 401
                    detail := "Invalid or expired refresh token" })
  | some payload =>
    if payload.type != some "refresh" then
      .error (.http { status_code := 401, detail := "Invalid token type" })
    else
      match payload.sub with
      | none =>
        .error (.http { status_code := 401, detail := "Invalid token" })
      | some s =>
        match pyIntNat? s with
        | none =>
          .error (.http { status_code := 401
                          detail := "Invalid user ID in token" })
        | some user_id =>
          match findById db user_id with
          | none =>
            .error (.http { status_code := 404, detail := "User not found" })
          | some user =>
            .ok { access_token := create_access_token (toString user.id) now
                  refresh_token := create_refresh_token (toString user.id) now }

/-- The shared 401 of `get_current_user` in `app/core/dependencies.py`. -/
def credentialsException : HTTPError :=
  { status_code := 401
    detail := "Could not validate credentials"
    headers := [("WWW-Authenticate", "Bearer")] }

/-- `app/core/dependencies.py` `get_current_user`: the bearer
authentication used by every protected endpoint.  Decodes the presented
token, reads `sub`, parses it as an integer, and fetches the user.
Note: no check of the `type` claim appears anywhere on this path. -/
def get_current_user (db : Db) (token : Jwt) (now : Int) :
    Except HTTPError Account :=
  match decode_token token now with
  | none => .error credentialsException
  | some payload =>
    match payload.sub with
    | none => .error credentialsException
    | some s =>
      match pyIntNat? s with
      | none => .error credentialsException
      | some user_id =>
        match findById db user_id with
        | none => .error { status_code := 404, detail := "User not found" }
        | some user => .ok user

/-- The report dict returned by `_cleanup_unverified`. -/
structure CleanupReport where
  deleted : Nat
  user_ids : List Nat
  emails : List String
  deriving DecidableEq, Repr

/-- Result of one cleanup run: the store afterwards, the report, and
whether a bulk `DELETE` was issued to the store at all (the two early
returns issue none). -/
structure CleanupOutcome where
  db : Db
  report : CleanupReport
  storeDeleteIssued : Bool
  deriving DecidableEq, Repr

/-- The store-level comparison `User.created_at < cutoff_date` of the
select: stored timestamps hold UTC instants (naive ones as their
wall-clock reading), so the store compares instants. -/
def storeCreatedBefore (u : Account) (cutoff : Int) : Bool :=
  u.created_at.instant < cutoff

/-- `app/tasks/cleanup.py` `_cleanup_unverified` at clock `now`:
`cutoff = now - UNVERIFIED_USER_DELETE_DAYS`; select unverified rows
created strictly before the cutoff; if none, return a zero report; then
defensively re-filter in memory treating naive `created_at` as UTC; if
none survive, return a zero report; otherwise bulk-delete by id set and
report count, ids and emails. -/
def cleanup_unverified (db : Db) (now : Int) : CleanupOutcome :=
  let cutoff_date : Int := now - settings.UNVERIFIED_USER_DELETE_DAYS * 86400
  let users_to_delete :=
    db.filter fun u => !u.is_verified && storeCreatedBefore u cutoff_date
  if users_to_delete.isEmpty then
    { db := db, report := ⟨0, [], []⟩, storeDeleteIssued := false }
  else
    let valid_deletions :=
      users_to_delete.filter fun u =>
        (PyDateTime.forceUtc u.created_at).instant < cutoff_date
    if valid_deletions.isEmpty then
      { db := db, report := ⟨0, [], []⟩, storeDeleteIssued := false }
    else
      let user_ids := valid_deletions.map (·.id)
      let user_emails := valid_deletions.map (·.email)
      { db := db.filter fun u => !user_ids.contains u.id
        report := ⟨user_ids.length, user_ids, user_emails⟩
        storeDeleteIssued := true }

/-- `app/schemas/user.py` `UserUpdate` (PATCH payload): only
`first_name`, `last_name` and `email` exist on the schema, each
optional.  The outer `Option` is "was the field present in the request"
(pydantic `exclude_unset`); the inner value is what it is set to.
(An explicit `email: null` in the body would be rejected downstream by
the NOT NULL column; it is not modelled.) -/
structure UserUpdate where
  first_name : Option (Option String) := none
  last_name : Option (Option String) := none
  email : Option String := none
  deriving DecidableEq, Repr

/-- `app/services/user_service.py` `update_user`: 404 when the id is
unknown, 400 when no field was provided, 400 when the new email belongs
to a different user; otherwise `setattr` exactly the provided fields and
commit.  Returns the store after the call and the HTTP result. -/
def update_user (db : Db) (user_id : Nat) (upd : UserUpdate) :
    Db × Except HTTPError Account :=
  match findById db user_id with
  | none =>
    (db, .error
      { status_code := 404
        detail := "User with ID " ++ toString user_id ++ " not found" })
  | some user =>
    if !(upd.first_name.isSome || upd.last_name.isSome || upd.email.isSome)
    then
      (db, .error { status_code := 400
                    detail := "No fields provided for update" })
    else
      let emailConflict : Bool :=
        match upd.email with
        | some e =>
          (db.find? fun (v : Account) => v.email == e && v.id != user_id).isSome
        | none => false
      if emailConflict then
        (db, .error { status_code := 400, detail := "Email already in use" })
      else
        let user' : Account :=
          { user with
              first_name := upd.first_name.getD user.first_name
              last_name := upd.last_name.getD user.last_name
              email := upd.email.getD user.email }
        (db.map fun (v : Account) => if v.id == user_id then user' else v,
         .ok user')

/-! ## Sample data for witnesses and counterexamples -/

/-- A concrete store account used by witnesses. -/
def sampleAccount : Account :=
  { id := 1
    email := "a@b.c"
    hashed_password := hash_password "pw1234" 7
    created_at := { instant := 0 } }

/-- An unverified account with a stored code hash and a NULL expiry
(the shape claim C9 is about). -/
def c9Account : Account :=
  { id := 2
    email := "x@y.z"
    hashed_password := hash_password "pw" 1
    verification_code := some (hash_password "123456" 3)
    verification_code_expires_at := none
    created_at := { instant := 0 } }

/-- An unverified account whose code expires exactly at instant 100. -/
def c2Account : Account :=
  { id := 3
    email := "c2@y.z"
    hashed_password := hash_password "pw" 1
    verification_code := some (hash_password "123456" 3)
    verification_code_expires_at := some { instant := 100 }
    created_at := { instant := 0 } }

/-- The refresh token consumed in the C3 scenario: minted for subject 1
at instant 0. -/
def c3SubmittedToken : Jwt := create_refresh_token "1" 0

/-- The pair a refresh call at instant 5 mints for subject 1. -/
def c3RespAt5 : TokenResponse :=
  { access_token := create_access_token "1" 5
    refresh_token := create_refresh_token "1" 5 }

/-- "The submitted code's hash matches the stored hash": the stored
code-hash field holds a bcrypt hash of the submitted code. -/
def codeHashMatches (code : String) (u : Account) : Prop :=
  ∃ salt, u.verification_code = some (hash_password code salt)

/-- The code-expiry check of `verify_email` fires: an expiry timestamp
is stored and (read as UTC) lies strictly in the past. -/
def expiryElapsed (u : Account) (now : Int) : Prop :=
  ∃ e, u.verification_code_expires_at = some e ∧
    (PyDateTime.forceUtc e).instant < now

/-- The stored code hash, when present, is a recognisable bcrypt hash
(always true for accounts the application itself wrote, since the field
only ever receives `hash_password` output). -/
def storedCodeHashWellFormed (u : Account) : Prop :=
  ∀ raw, u.verification_code ≠ some (BcryptHash.malformed raw)

/-- The full (amended) characterisation of `verify_email` claimed by
C2: success iff not-yet-verified ∧ a code hash is stored ∧ the expiry
check does not fire ∧ the hash matches; each failure is the exact error
of the first failing check, in the order AlreadyVerified, NoCodeIssued,
CodeExpired, InvalidCode; success flips `is_verified` and clears both
code fields. -/
def C2AmendedProp (now : Int) (code : String) (u : Account) : Prop :=
  ((∃ u', verify_email now code u = .ok u') ↔
    (u.is_verified = false ∧ codeHashMatches code u ∧
      ¬ expiryElapsed u now)) ∧
  (u.is_verified = true →
    verify_email now code u = .error (.http alreadyVerifiedError)) ∧
  (u.is_verified = false → u.verification_code = none →
    verify_email now code u = .error (.http noCodeError)) ∧
  (u.is_verified = false → u.verification_code ≠ none →
    expiryElapsed u now →
    verify_email now code u = .error (.http codeExpiredError)) ∧
  (u.is_verified = false → u.verification_code ≠ none →
    ¬ expiryElapsed u now → ¬ codeHashMatches code u →
    verify_email now code u = .error (.http invalidCodeError)) ∧
  (∀ u', verify_email now code u = .ok u' →
    u' = { u with is_verified := true
                  verification_code := none
                  verification_code_expires_at := none })

/-- The account row a fresh-email registration inserts. -/
def registeredAccount (db : Db) (req : SignupRequest) (ds : Fin 6 → Fin 10)
    (saltPw saltCode : Nat) (now : Int) : Account :=
  { id := nextId db
    email := req.email
    hashed_password := hash_password req.password saltPw
    first_name := req.first_name
    last_name := req.last_name
    role := .user
    is_verified := false
    verification_code := some (hash_password (generateCode ds) saltCode)
    verification_code_expires_at :=
      some { instant := now + settings.VERIFICATION_CODE_EXPIRE_HOURS * 3600 }
    created_at := { instant := now } }

/-- What claim C6 asserts about a registration with a fresh email: the
store gains exactly one new account — unverified, carrying the hashed
6-digit code and the now+24h expiry — and the returned pair's access
and refresh tokens both decode (immediately) to a `sub` equal to the
new account's id. -/
def RegisterFreshSpec (db : Db) (req : SignupRequest) (ds : Fin 6 → Fin 10)
    (saltPw saltCode : Nat) (now : Int) : Prop :=
  register_user db req ds saltPw saltCode now =
    (db ++ [registeredAccount db req ds saltPw saltCode now],
     .ok { access_token :=
             create_access_token
               (toString (registeredAccount db req ds saltPw saltCode now).id)
               now
           refresh_token :=
             create_refresh_token
               (toString (registeredAccount db req ds saltPw saltCode now).id)
               now }) ∧
  (registeredAccount db req ds saltPw saltCode now).is_verified = false ∧
  (generateCode ds).length = 6 ∧
  (∀ c ∈ (generateCode ds).data, c.isDigit = true) ∧
  (decode_token
      (create_access_token
        (toString (registeredAccount db req ds saltPw saltCode now).id) now)
      now).map (fun p => p.sub) =
    some (some (toString (registeredAccount db req ds saltPw saltCode now).id)) ∧
  (decode_token
      (create_refresh_token
        (toString (registeredAccount db req ds saltPw saltCode now).id) now)
      now).map (fun p => p.sub) =
    some (some (toString (registeredAccount db req ds saltPw saltCode now).id))

/-- The purge predicate of claim C4: unverified, and created (read as
UTC) strictly before `now` minus the retention window. -/
def qualifies (now : Int) (u : Account) : Bool :=
  !u.is_verified &&
    storeCreatedBefore u (now - settings.UNVERIFIED_USER_DELETE_DAYS * 86400)

/-- What claim C4 asserts of one cleanup run at clock `now`: the store
keeps exactly the non-qualifying accounts, the report lists exactly the
qualifying ids/emails/count, an empty candidate set means a zero report
with no store delete issued, and an immediate second run deletes
nothing. -/
def C4Conclusion (db : Db) (now : Int) : Prop :=
  (cleanup_unverified db now).db = db.filter (fun u => !(qualifies now u)) ∧
  (cleanup_unverified db now).report.user_ids =
    (db.filter (fun u => qualifies now u)).map (fun u => u.id) ∧
  (cleanup_unverified db now).report.emails =
    (db.filter (fun u => qualifies now u)).map (fun u => u.email) ∧
  (cleanup_unverified db now).report.deleted =
    (db.filter (fun u => qualifies now u)).length ∧
  (db.filter (fun u => qualifies now u) = [] →
    cleanup_unverified db now =
      { db := db, report := ⟨0, [], []⟩, storeDeleteIssued := false }) ∧
  cleanup_unverified (cleanup_unverified db now).db now =
    { db := (cleanup_unverified db now).db
      report := ⟨0, [], []⟩
      storeDeleteIssued := false }

/-- The account `sampleAccount` after the admin PATCH used as the C10
witness. -/
def c10Updated : Account :=
  { sampleAccount with first_name := some "X" }

/-- The reaper scenario of the spec (§8), at clock `30 * 86400`:
accounts aged 12 h (unverified), 3 d (unverified), 10 d (verified) and
30 d (unverified). -/
def c4Db : Db :=
  [{ id := 11, email := "h12@x", hashed_password := hash_password "p" 0
     is_verified := false, created_at := { instant := 30 * 86400 - 43200 } },
   { id := 12, email := "d3@x", hashed_password := hash_password "p" 0
     is_verified := false, created_at := { instant := 27 * 86400 } },
   { id := 13, email := "d10@x", hashed_password := hash_password "p" 0
     is_verified := true, created_at := { instant := 20 * 86400 } },
   { id := 14, email := "d30@x", hashed_password := hash_password "p" 0
     is_verified := false, created_at := { instant := 0 } }]

/-! ## Shared auxiliary facts -/

/-- Normalising a naive timestamp to UTC never changes the instant. -/
theorem forceUtc_instant (d : PyDateTime) :
    (PyDateTime.forceUtc d).instant = d.instant := by
  unfold PyDateTime.forceUtc
  split <;> rfl

/-- Each generated code character is a decimal digit. -/
theorem digitChar_isDigit : ∀ d : Fin 10, (digitChar d).isDigit = true := by
  decide

/-! ## Claim theorems -/

/-- C7 counterexample: the claim says the hasher's verify "returns a
boolean and never throws ... returns false (rather than raising) on a
malformed hash".  With `schemes=["bcrypt"]`, passlib's
`CryptContext.verify` raises `UnknownHashError` when the hash string is
not recognisable, so `verify_password` propagates an exception instead
of returning `false`. -/
theorem C7_counterexample_malformed_hash_raises :
    verify_password "anything" (BcryptHash.malformed "not-a-hash") =
      .error PasslibError.unknownHash :=
  rfl

/-- C7 (amended): on a well-formed bcrypt hash, verify returns a boolean
that is true iff the secret matches the hashed secret; on a malformed
hash it raises `UnknownHashError` instead of returning false. -/
theorem C7_verify_password_amended (plain secret raw : String) (salt : Nat) :
    verify_password plain (hash_password secret salt) = .ok (plain == secret) ∧
    verify_password plain (BcryptHash.malformed raw) =
      .error PasslibError.unknownHash :=
  ⟨rfl, rfl⟩

/-- C8: token round-trip.  Decoding a freshly issued access token before
its expiry window elapses succeeds and yields the subject id (and no
kind claim); decoding a freshly issued refresh token yields the subject
id together with the kind marker "refresh". -/
theorem C8_token_round_trip (uid : Nat) (issuedAt decodeAt : Int)
    (hAcc : decodeAt ≤ issuedAt + settings.ACCESS_TOKEN_EXPIRE_MINUTES * 60)
    (hRef : decodeAt ≤ issuedAt + settings.REFRESH_TOKEN_EXPIRE_DAYS * 86400) :
    decode_token (create_access_token (toString uid) issuedAt) decodeAt =
      some { sub := some (toString uid)
             exp := issuedAt + settings.ACCESS_TOKEN_EXPIRE_MINUTES * 60
             type := none } ∧
    decode_token (create_refresh_token (toString uid) issuedAt) decodeAt =
      some { sub := some (toString uid)
             exp := issuedAt + settings.REFRESH_TOKEN_EXPIRE_DAYS * 86400
             type := some "refresh" } := by
  constructor <;>
    simp [decode_token, create_access_token, create_refresh_token] <;>
    omega

/-- C8 witness: both round trips at subject id 7, issued at time 0 and
decoded at time 9. -/
theorem C8_token_round_trip_witness :
    (9 : Int) ≤ 0 + settings.ACCESS_TOKEN_EXPIRE_MINUTES * 60 ∧
    (9 : Int) ≤ 0 + settings.REFRESH_TOKEN_EXPIRE_DAYS * 86400 ∧
    (decode_token (create_access_token (toString (7 : Nat)) 0) 9 =
      some { sub := some (toString (7 : Nat))
             exp := 0 + settings.ACCESS_TOKEN_EXPIRE_MINUTES * 60
             type := none } ∧
     decode_token (create_refresh_token (toString (7 : Nat)) 0) 9 =
      some { sub := some (toString (7 : Nat))
             exp := 0 + settings.REFRESH_TOKEN_EXPIRE_DAYS * 86400
             type := some "refresh" }) :=
  ⟨by decide, by decide, C8_token_round_trip 7 0 9 (by decide) (by decide)⟩

/-- C5: both failure causes of login — unknown email, and known email
with a password that does not verify against the stored hash — raise the
very same `HTTPException` value (same status code, same detail, same
headers), so they are indistinguishable to the caller. -/
theorem C5_login_failure_uniform (db : Db) (email password : String)
    (now : Int) :
    (findByEmail db email = none →
      login_user db email password now = .error (.http loginFailureError)) ∧
    (∀ u, findByEmail db email = some u →
      verify_password password u.hashed_password = .ok false →
      login_user db email password now = .error (.http loginFailureError)) := by
  constructor
  · intro h
    simp [login_user, h]
  · intro u hu hv
    simp [login_user, hu, hv]

/-- C5 witness: unknown email, and wrong password for the sample
account, both produce the single shared 401. -/
theorem C5_login_failure_uniform_witness :
    login_user [sampleAccount] "nobody@x" "pw1234" 0 =
      .error (.http loginFailureError) ∧
    login_user [sampleAccount] "a@b.c" "wrong" 0 =
      .error (.http loginFailureError) :=
  ⟨(C5_login_failure_uniform [sampleAccount] "nobody@x" "pw1234" 0).1 rfl,
   (C5_login_failure_uniform [sampleAccount] "a@b.c" "wrong" 0).2
      sampleAccount rfl rfl⟩

/-- C9: on an account whose code hash is present but whose expiry
timestamp is NULL, `verify_email` performs no expiry check at all: the
outcome does not depend on the clock, is never `CodeExpired`, and is
decided solely by the hash comparison. -/
theorem C9_null_expiry_never_expires (now : Int) (u : Account)
    (code sec : String) (salt : Nat)
    (h1 : u.is_verified = false)
    (h2 : u.verification_code = some (hash_password sec salt))
    (h3 : u.verification_code_expires_at = none) :
    verify_email now code u =
      (if code == sec then
        .ok { u with is_verified := true
                     verification_code := none
                     verification_code_expires_at := none }
       else .error (.http invalidCodeError)) ∧
    verify_email now code u ≠ .error (.http codeExpiredError) := by
  have hmain : verify_email now code u =
      (if code == sec then
        .ok { u with is_verified := true
                     verification_code := none
                     verification_code_expires_at := none }
       else .error (.http invalidCodeError)) := by
    simp [verify_email, h1, h2, h3, hash_password, verify_password]
  refine ⟨hmain, ?_⟩
  rw [hmain]
  by_cases hc : code == sec <;>
    simp [hc, codeExpiredError, invalidCodeError]

/-- Any successful refresh consumed a token whose `type` claim is
`"refresh"`, and returned exactly the pair freshly minted at `now` for
the found user's id. -/
theorem refresh_ok_shape (db : Db) (tok : Jwt) (now : Int)
    (resp : TokenResponse)
    (h : refresh_access_token db tok now = .ok resp) :
    tok.payload.type = some "refresh" ∧
    ∃ uid : Nat,
      resp = { access_token := create_access_token (toString uid) now
               refresh_token := create_refresh_token (toString uid) now } := by
  unfold refresh_access_token at h
  cases hd : decode_token tok now with
  | none => rw [hd] at h; cases h
  | some payload =>
    have hpl : payload = tok.payload := by
      unfold decode_token at hd
      split at hd
      · cases hd
      · split at hd
        · cases hd
        · injection hd with h'
          exact h'.symm
    rw [hd] at h
    dsimp only at h
    split at h
    · cases h
    case isFalse hty =>
      have hty' : payload.type = some "refresh" := by
        simpa [bne] using hty
      refine ⟨hpl ▸ hty', ?_⟩
      cases hs : payload.sub with
      | none => rw [hs] at h; cases h
      | some s =>
        rw [hs] at h
        dsimp only at h
        cases hn : pyIntNat? s with
        | none => rw [hn] at h; cases h
        | some uid =>
          rw [hn] at h
          dsimp only at h
          cases hf : findById db uid with
          | none => rw [hf] at h; cases h
          | some user =>
            rw [hf] at h
            dsimp only at h
            injection h with h'
            exact ⟨user.id, h'.symm⟩

/-- C1 (code evaluated at the failing input): the kind-marker check is
one-directional.  A valid, unexpired refresh token for the existing user
id 1, presented as a bearer credential, is ACCEPTED by
`get_current_user` — the access-token-expecting check never inspects the
`type` claim — while the opposite direction does hold: the refresh
operation rejects an access token (no `"refresh"` kind marker) with a
401. -/
theorem C1_kind_check_one_directional :
    get_current_user [sampleAccount] (create_refresh_token "1" 0) 0 =
      .ok sampleAccount ∧
    refresh_access_token [sampleAccount] (create_access_token "1" 0) 0 =
      .error (.http { status_code := 401, detail := "Invalid token type" }) :=
  ⟨rfl, rfl⟩

/-- C3 counterexample: a refresh call in the very second the submitted
refresh token was minted succeeds and returns a refresh token that is
byte-identical to the submitted one — the claim that the returned
refresh token always differs from the submitted one fails.  (JWT
encoding is deterministic and `exp` has second granularity, so equal
claim sets give equal token strings.) -/
theorem C3_counterexample_same_second_refresh :
    (refresh_access_token [sampleAccount] c3SubmittedToken 0).toOption.map
        (fun r => r.refresh_token) = some c3SubmittedToken :=
  rfl

/-- C3 (amended): rotation always returns an access token different
from the submitted refresh token (their claim sets differ in the kind
marker), and returns a refresh token different from the submitted one
whenever the submitted token's `exp` differs from the `exp` a token
minted at `now` gets — i.e. whenever the two mint times differ.  In the
same second, with no nonce claim, the "new" refresh token coincides
with the submitted one. -/
theorem C3_rotation_amended (db : Db) (tok : Jwt) (now : Int)
    (resp : TokenResponse)
    (h : refresh_access_token db tok now = .ok resp) :
    resp.access_token ≠ tok ∧
    (tok.payload.exp ≠ now + settings.REFRESH_TOKEN_EXPIRE_DAYS * 86400 →
      resp.refresh_token ≠ tok) := by
  obtain ⟨hty, uid, hresp⟩ := refresh_ok_shape db tok now resp h
  subst hresp
  constructor
  · intro heq
    have heq' : create_access_token (toString uid) now = tok := heq
    have : (none : Option String) = some "refresh" := by
      calc (none : Option String)
          = (create_access_token (toString uid) now).payload.type := rfl
        _ = tok.payload.type := by rw [heq']
        _ = some "refresh" := hty
    cases this
  · intro hexp heq
    have heq' : create_refresh_token (toString uid) now = tok := heq
    apply hexp
    calc tok.payload.exp
        = (create_refresh_token (toString uid) now).payload.exp := by
          rw [heq']
      _ = now + settings.REFRESH_TOKEN_EXPIRE_DAYS * 86400 := rfl

/-- C3 amended witness: refreshing at instant 5 a refresh token minted
at instant 0 returns an access token and a refresh token both different
from the submitted token. -/
theorem C3_rotation_amended_witness :
    c3RespAt5.access_token ≠ c3SubmittedToken ∧
    c3RespAt5.refresh_token ≠ c3SubmittedToken :=
  have h := C3_rotation_amended [sampleAccount] c3SubmittedToken 5 c3RespAt5
    rfl
  ⟨h.1, h.2 (by decide)⟩

/-- C2 counterexample: at a current time exactly equal to the stored
expiry (so NOT strictly before it), the claim demands a `CodeExpired`
failure, but `verify_email` succeeds: the code only fails when
`expires_at < now` strictly. -/
theorem C2_counterexample_boundary :
    c2Account.is_verified = false ∧
    c2Account.verification_code_expires_at = some { instant := 100 } ∧
    ¬ ((100 : Int) < 100) ∧
    verify_email 100 "123456" c2Account =
      .ok { c2Account with is_verified := true
                           verification_code := none
                           verification_code_expires_at := none } :=
  ⟨rfl, rfl, by decide, rfl⟩

/-- C2 (amended): `verify_email` succeeds iff the account is not already
verified AND a code hash is stored AND the expiry check does not fire —
it fires only when a stored expiry (read as UTC) lies strictly in the
past, so success also occurs at the exact expiry instant and on a NULL
expiry — AND the submitted code's hash matches the stored hash;
otherwise it fails with exactly the error of the first failing check,
in the order AlreadyVerified, NoCodeIssued, CodeExpired, InvalidCode;
on success it sets `is_verified` and clears both code fields. -/
theorem C2_verify_email_amended (now : Int) (code : String) (u : Account)
    (hwf : storedCodeHashWellFormed u) :
    C2AmendedProp now code u := by
  unfold C2AmendedProp
  cases hv : u.is_verified with
  | true =>
    have hres : verify_email now code u =
        .error (.http alreadyVerifiedError) := by
      simp [verify_email, hv]
    refine ⟨?_, fun _ => hres, ?_, ?_, ?_, ?_⟩
    · constructor
      · rintro ⟨u', hq⟩
        rw [hres] at hq
        cases hq
      · rintro ⟨hf, -⟩
        simp at hf
    · intro hf
      simp at hf
    · intro hf
      simp at hf
    · intro hf
      simp at hf
    · intro u' hq
      rw [hres] at hq
      cases hq
  | false =>
    cases hc : u.verification_code with
    | none =>
      have hres : verify_email now code u = .error (.http noCodeError) := by
        simp [verify_email, hv, hc]
      have hmF : ¬ codeHashMatches code u := by
        simp [codeHashMatches, hc]
      refine ⟨?_, ?_, fun _ _ => hres, ?_, ?_, ?_⟩
      · constructor
        · rintro ⟨u', hq⟩
          rw [hres] at hq
          cases hq
        · rintro ⟨-, hm, -⟩
          exact absurd hm hmF
      · intro hf
        simp at hf
      · intro _ hne _
        exact absurd rfl hne
      · intro _ hne _ _
        exact absurd rfl hne
      · intro u' hq
        rw [hres] at hq
        cases hq
    | some sh =>
      cases sh with
      | malformed raw => exact absurd hc (hwf raw)
      | bcrypt salt sec =>
        cases he : u.verification_code_expires_at with
        | some e =>
          by_cases hlt : (PyDateTime.forceUtc e).instant < now
          · -- expiry check fires
            have hexT : expiryElapsed u now := ⟨e, he, hlt⟩
            have hres : verify_email now code u =
                .error (.http codeExpiredError) := by
              simp [verify_email, hv, hc, he, hlt]
            refine ⟨?_, ?_, ?_, fun _ _ _ => hres, ?_, ?_⟩
            · constructor
              · rintro ⟨u', hq⟩
                rw [hres] at hq
                cases hq
              · rintro ⟨-, -, hne⟩
                exact absurd hexT hne
            · intro hf
              simp at hf
            · intro _ hcn
              cases hcn
            · intro _ _ hne _
              exact absurd hexT hne
            · intro u' hq
              rw [hres] at hq
              cases hq
          · -- stored expiry not yet past
            have hexF : ¬ expiryElapsed u now := by
              rintro ⟨e', he', hlt'⟩
              rw [he] at he'
              injection he' with h''
              subst h''
              exact hlt hlt'
            by_cases hcs : code = sec
            · have hres : verify_email now code u =
                  .ok { u with is_verified := true
                               verification_code := none
                               verification_code_expires_at := none } := by
                simp [verify_email, hv, hc, he, hlt, verify_password, hcs]
              have hm : codeHashMatches code u := by
                refine ⟨salt, ?_⟩
                rw [hc]
                simp [hash_password, hcs]
              refine ⟨?_, ?_, ?_, ?_, ?_, ?_⟩
              · constructor
                · intro _
                  exact ⟨rfl, hm, hexF⟩
                · intro _
                  exact ⟨_, hres⟩
              · intro hf
                simp at hf
              · intro _ hcn
                cases hcn
              · intro _ _ hex
                exact absurd hex hexF
              · intro _ _ _ hnm
                exact absurd hm hnm
              · intro u' hq
                rw [hres] at hq
                injection hq with h''
                exact h''.symm
            · have hres : verify_email now code u =
                  .error (.http invalidCodeError) := by
                simp [verify_email, hv, hc, he, hlt, verify_password, hcs]
              have hmF : ¬ codeHashMatches code u := by
                rintro ⟨salt', heq⟩
                rw [hc] at heq
                injection heq with h''
                injection h'' with h1 h2
                exact hcs h2.symm
              refine ⟨?_, ?_, ?_, ?_, fun _ _ _ _ => hres, ?_⟩
              · constructor
                · rintro ⟨u', hq⟩
                  rw [hres] at hq
                  cases hq
                · rintro ⟨-, hm, -⟩
                  exact absurd hm hmF
              · intro hf
                simp at hf
              · intro _ hcn
                cases hcn
              · intro _ _ hex
                exact absurd hex hexF
              · intro u' hq
                rw [hres] at hq
                cases hq
        | none =>
          have hexF : ¬ expiryElapsed u now := by
            rintro ⟨e', he', -⟩
            rw [he] at he'
            cases he'
          by_cases hcs : code = sec
          · have hres : verify_email now code u =
                .ok { u with is_verified := true
                             verification_code := none
                             verification_code_expires_at := none } := by
              simp [verify_email, hv, hc, he, verify_password, hcs]
            have hm : codeHashMatches code u := by
              refine ⟨salt, ?_⟩
              rw [hc]
              simp [hash_password, hcs]
            refine ⟨?_, ?_, ?_, ?_, ?_, ?_⟩
            · constructor
              · intro _
                exact ⟨rfl, hm, hexF⟩
              · intro _
                exact ⟨_, hres⟩
            · intro hf
              simp at hf
            · intro _ hcn
              cases hcn
            · intro _ _ hex
              exact absurd hex hexF
            · intro _ _ _ hnm
              exact absurd hm hnm
            · intro u' hq
              rw [hres] at hq
              injection hq with h''
              exact h''.symm
          · have hres : verify_email now code u =
                .error (.http invalidCodeError) := by
              simp [verify_email, hv, hc, he, verify_password, hcs]
            have hmF : ¬ codeHashMatches code u := by
              rintro ⟨salt', heq⟩
              rw [hc] at heq
              injection heq with h''
              injection h'' with h1 h2
              exact hcs h2.symm
            refine ⟨?_, ?_, ?_, ?_, fun _ _ _ _ => hres, ?_⟩
            · constructor
              · rintro ⟨u', hq⟩
                rw [hres] at hq
                cases hq
              · rintro ⟨-, hm, -⟩
                exact absurd hm hmF
            · intro hf
              simp at hf
            · intro _ hcn
              cases hcn
            · intro _ _ hex
              exact absurd hex hexF
            · intro u' hq
              rw [hres] at hq
              cases hq

/-- C2 amended witness: the concrete account `c2Account` (unverified,
code hash stored, expiry at instant 100) satisfies the amended
characterisation at time 50 with the correct code. -/
theorem C2_verify_email_amended_witness :
    storedCodeHashWellFormed c2Account ∧ C2AmendedProp 50 "123456" c2Account :=
  ⟨by intro raw h; simp [c2Account, hash_password] at h,
   C2_verify_email_amended 50 "123456" c2Account
     (by intro raw h; simp [c2Account, hash_password] at h)⟩

/-- C9 witness: sample unverified account, code hash stored, expiry
NULL; the right code verifies at any time, the wrong one is
`InvalidCode`, never `CodeExpired`. -/
theorem C9_null_expiry_never_expires_witness :
    verify_email 999999999 "123456" c9Account =
      (if "123456" == "123456" then
        .ok { c9Account with is_verified := true
                             verification_code := none
                             verification_code_expires_at := none }
       else .error (.http invalidCodeError)) ∧
    verify_email 999999999 "123456" c9Account ≠
      .error (.http codeExpiredError) :=
  C9_null_expiry_never_expires 999999999 c9Account "123456" "123456" 3
    rfl rfl rfl

/-- C6: registering an email that already exists fails with the
duplicate-email error and leaves the store unchanged; registering a
fresh email inserts exactly one unverified account carrying a hashed
6-digit code and a now+24h expiry, and returns a token pair whose
access and refresh tokens both decode to a subject equal to the new
account's id. -/
theorem C6_register (db : Db) (req : SignupRequest) (ds : Fin 6 → Fin 10)
    (saltPw saltCode : Nat) (now : Int) :
    (∀ u, findByEmail db req.email = some u →
      register_user db req ds saltPw saltCode now =
        (db, .error duplicateEmailError)) ∧
    (findByEmail db req.email = none →
      RegisterFreshSpec db req ds saltPw saltCode now) := by
  constructor
  · intro u hu
    simp [register_user, hu]
  · intro hn
    refine ⟨?_, rfl, ?_, ?_, ?_, ?_⟩
    · simp [register_user, hn, registeredAccount]
    · have : (generateCode ds).length =
          ((List.finRange 6).map fun i => digitChar (ds i)).length := rfl
      rw [this, List.length_map, List.length_finRange]
    · intro c hc
      have hc' : c ∈ (List.finRange 6).map fun i => digitChar (ds i) := hc
      rcases List.mem_map.1 hc' with ⟨i, -, rfl⟩
      exact digitChar_isDigit (ds i)
    · have hne : ¬ (now + settings.ACCESS_TOKEN_EXPIRE_MINUTES * 60 < now) := by
        show ¬ (now + 30 * 60 < now)
        omega
      simp [decode_token, create_access_token, hne]
    · have hne : ¬ (now + settings.REFRESH_TOKEN_EXPIRE_DAYS * 86400 < now) := by
        show ¬ (now + 7 * 86400 < now)
        omega
      simp [decode_token, create_refresh_token, hne]

/-- C6 witness: a duplicate signup against the sample store fails with
the duplicate error and no store change; a fresh signup on the empty
store satisfies the full registration contract. -/
theorem C6_register_witness :
    register_user [sampleAccount]
        { email := "a@b.c", password := "pw1234" } (fun _ => 0) 0 1 0 =
      ([sampleAccount], .error duplicateEmailError) ∧
    RegisterFreshSpec [] { email := "new@b.c", password := "pw1234" }
      (fun _ => 0) 0 1 0 :=
  ⟨(C6_register [sampleAccount]
      { email := "a@b.c", password := "pw1234" } (fun _ => 0) 0 1 0).1
      sampleAccount rfl,
   (C6_register [] { email := "new@b.c", password := "pw1234" }
      (fun _ => 0) 0 1 0).2 rfl⟩

/-- C10: whenever the admin PATCH succeeds, the updated account agrees
with the original on `is_verified`, `role`, `hashed_password`,
`verification_code`, `verification_code_expires_at` and `created_at` —
only the three schema fields (first name, last name, email) can ever
change. -/
theorem C10_admin_update_frame (db : Db) (user_id : Nat) (upd : UserUpdate)
    (a a' : Account)
    (hfind : findById db user_id = some a)
    (hok : (update_user db user_id upd).2 = .ok a') :
    a'.is_verified = a.is_verified ∧
    a'.role = a.role ∧
    a'.hashed_password = a.hashed_password ∧
    a'.verification_code = a.verification_code ∧
    a'.verification_code_expires_at = a.verification_code_expires_at ∧
    a'.created_at = a.created_at := by
  unfold update_user at hok
  rw [hfind] at hok
  dsimp only at hok
  split at hok
  · simp at hok
  · split at hok
    · simp at hok
    · injection hok with h'
      subst h'
      exact ⟨rfl, rfl, rfl, rfl, rfl, rfl⟩

/-- C10 witness: patching the sample account's first name preserves all
six framed fields. -/
theorem C10_admin_update_frame_witness :
    c10Updated.is_verified = sampleAccount.is_verified ∧
    c10Updated.role = sampleAccount.role ∧
    c10Updated.hashed_password = sampleAccount.hashed_password ∧
    c10Updated.verification_code = sampleAccount.verification_code ∧
    c10Updated.verification_code_expires_at =
      sampleAccount.verification_code_expires_at ∧
    c10Updated.created_at = sampleAccount.created_at :=
  C10_admin_update_frame [sampleAccount] 1
    { first_name := some (some "X") } sampleAccount c10Updated rfl rfl

/-- The defensive in-memory re-filter of the cleanup task keeps every
selected candidate: after UTC normalisation it compares the same
instant against the same cutoff as the store-level select. -/
theorem cleanup_refilter_eq (db : Db) (now : Int) :
    (db.filter fun u => qualifies now u).filter
        (fun u => decide ((PyDateTime.forceUtc u.created_at).instant <
          now - settings.UNVERIFIED_USER_DELETE_DAYS * 86400)) =
      db.filter fun u => qualifies now u := by
  apply List.filter_eq_self.mpr
  intro u hu
  have hq : qualifies now u = true := (List.mem_filter.1 hu).2
  simp only [qualifies, Bool.and_eq_true] at hq
  rw [forceUtc_instant]
  exact hq.2

/-- A cleanup run whose candidate select is empty is a no-op: zero
report, store untouched, no delete issued. -/
theorem cleanup_noop_of_empty (db : Db) (now : Int)
    (h : db.filter (fun u => qualifies now u) = []) :
    cleanup_unverified db now =
      { db := db, report := ⟨0, [], []⟩, storeDeleteIssued := false } := by
  have h' : db.filter
      (fun u => !u.is_verified && storeCreatedBefore u
        (now - settings.UNVERIFIED_USER_DELETE_DAYS * 86400)) = [] := h
  simp [cleanup_unverified, h']

/-- A cleanup run with at least one candidate deletes by the id set of
the (re-filtered = selected) candidates and reports them. -/
theorem cleanup_run_of_nonempty (db : Db) (now : Int)
    (h : db.filter (fun u => qualifies now u) ≠ []) :
    cleanup_unverified db now =
      { db := db.filter fun u =>
          !((db.filter (fun v => qualifies now v)).map
              (fun v => v.id)).contains u.id
        report :=
          ⟨((db.filter (fun v => qualifies now v)).map (fun v => v.id)).length,
           (db.filter (fun v => qualifies now v)).map (fun v => v.id),
           (db.filter (fun v => qualifies now v)).map (fun v => v.email)⟩
        storeDeleteIssued := true } := by
  have hq : db.filter
      (fun u => !u.is_verified && storeCreatedBefore u
        (now - settings.UNVERIFIED_USER_DELETE_DAYS * 86400)) =
      db.filter (fun u => qualifies now u) := rfl
  simp only [cleanup_unverified]
  rw [hq, cleanup_refilter_eq]
  simp [h]

/-- C4: one cleanup run deletes exactly the unverified accounts created
(read as UTC) strictly before now minus the retention window, reports
their count, ids and emails, leaves everything else untouched, issues
no store delete when nothing qualifies, and an immediate second run
deletes nothing.  (Ids are assumed pairwise distinct — the store's
primary key.) -/
theorem C4_purge_unverified (db : Db) (now : Int)
    (hids : (db.map fun u => u.id).Nodup) : C4Conclusion db now := by
  unfold C4Conclusion
  by_cases hE : db.filter (fun u => qualifies now u) = []
  · have hno := cleanup_noop_of_empty db now hE
    have hkeep : db.filter (fun u => !(qualifies now u)) = db := by
      apply List.filter_eq_self.mpr
      intro u hu
      have hq : ¬ (qualifies now u = true) :=
        List.filter_eq_nil_iff.1 hE u hu
      simp [Bool.eq_false_iff.2 hq]
    rw [hno, hE, hkeep]
    exact ⟨rfl, rfl, rfl, rfl, fun _ => rfl,
           cleanup_noop_of_empty db now hE⟩
  · have hrun := cleanup_run_of_nonempty db now hE
    have hinj := List.inj_on_of_nodup_map hids
    have hcontains : ∀ u ∈ db,
        (((db.filter (fun v => qualifies now v)).map
            (fun v => v.id)).contains u.id) = qualifies now u := by
      intro u hu
      by_cases hqu : qualifies now u = true
      · rw [hqu]
        exact List.elem_iff.2
          (List.mem_map.2 ⟨u, List.mem_filter.2 ⟨hu, hqu⟩, rfl⟩)
      · rw [Bool.eq_false_iff.2 hqu]
        apply Bool.eq_false_iff.2
        intro hcon
        rcases List.mem_map.1 (List.elem_iff.1 hcon) with ⟨v, hv, hvid⟩
        rcases List.mem_filter.1 hv with ⟨hvdb, hvq⟩
        have : v = u := hinj hvdb hu hvid
        exact hqu (this ▸ hvq)
    have hdbeq : db.filter
        (fun u => !((db.filter (fun v => qualifies now v)).map
            (fun v => v.id)).contains u.id) =
        db.filter (fun u => !(qualifies now u)) := by
      apply List.filter_congr
      intro u hu
      rw [hcontains u hu]
    have hsecond : (db.filter (fun u => !(qualifies now u))).filter
        (fun u => qualifies now u) = [] := by
      rw [List.filter_filter]
      apply List.filter_eq_nil_iff.2
      intro u _
      simp
    rw [hrun]
    dsimp only
    rw [hdbeq]
    exact ⟨rfl, rfl, rfl,
           List.length_map _ _,
           fun hcontra => absurd hcontra hE,
           cleanup_noop_of_empty _ now hsecond⟩

/-- C4 witness: the spec's own scenario — at clock 30 d with retention
2 d, a store holding a 12 h-old unverified, a 3 d-old unverified, a
10 d-old verified and a 30 d-old unverified account — where exactly the
3 d and 30 d unverified accounts qualify. -/
theorem C4_purge_unverified_witness :
    ((c4Db.map fun u => u.id).Nodup) ∧ C4Conclusion c4Db (30 * 86400) :=
  ⟨by decide, C4_purge_unverified c4Db (30 * 86400) (by decide)⟩

end CoffeeShop
